import Mathlib

/-!
Shallow embedding of `eth/api_tracer_parity.go` (core-geth Parity-style trace
API shim) and proofs of the specified properties.

External collaborators (chain lookup, consensus reward computation, the five
EVM tracer entry points) are modelled as components of an `Env` record of
uninterpreted functions, following the interfaces described in the spec.
Machine integers (`uint64`, `big.Int`) are modelled as `Nat`/`Int`; Go `nil`
pointers as `Option`; Go `(T, error)` returns as `Except`.
-/

/-- JSON values, modelling Go `interface{}` payloads produced by
`json.Unmarshal` and `map[string]interface{}` objects. -/
inductive Json where
  | null : Json
  | bool (b : Bool) : Json
  | str (s : String) : Json
  | num (n : Int) : Json
  | arr (elems : List Json) : Json
  | obj (fields : List (String × Json)) : Json

/-- `common.Address`, opaque here. -/
abbrev Address := Nat

/-- `common.Hash`, opaque here. -/
abbrev Hash := Nat

/-- Chain configuration (`eth.blockchain.Config()`), opaque here. -/
abbrev ChainConfig := Nat

/-- `rpc.Subscription` handle, opaque here. -/
abbrev Subscription := Nat

/-- `rpc.BlockNumber` is an `int64` with negative sentinel values. -/
abbrev BlockNumber := Int

/-- `rpc.PendingBlockNumber` sentinel. -/
def PendingBlockNumber : BlockNumber := -2

/-- `rpc.LatestBlockNumber` sentinel. -/
def LatestBlockNumber : BlockNumber := -1

namespace Types

/-- `types.Header`: only the fields this file reads (coinbase, number). -/
structure Header where
  coinbase : Address
  number : Nat
deriving DecidableEq

instance : Inhabited Header := ⟨⟨0, 0⟩⟩

/-- `types.Block`: only the accessors this file uses — `Header()`,
`Uncles()`, `Coinbase()` (= header coinbase), `Hash()`, `NumberU64()`
(= header number). -/
structure Block where
  header : Header
  uncles : List Header
  hash : Hash
deriving DecidableEq

end Types

/-- TraceConfig. Modelled from the spec: the `TraceConfig` struct is declared
outside this file (in the external tracer subsystem); per the spec it carries
at minimum a nullable `tracer` identifier and a `nestedTraceOutput` flag.
The Go zero value `TraceConfig\x7b\x7d` has `tracer = none` and
`nestedTraceOutput = false`. -/
structure TraceConfig where
  tracer : Option String
  nestedTraceOutput : Bool
deriving DecidableEq

/-- TraceFilterArgs represents the arguments for a range-trace call.
`hexutil.Uint64` fields are modelled as `Nat`; the optional address filters
and pagination hints are carried but never read by the logic here. -/
structure TraceFilterArgs where
  fromBlock : Nat
  toBlock : Nat
  fromAddress : Option Address
  toAddress : Option Address
  after : Nat
  count : Nat
deriving DecidableEq

/-- TraceRewardAction: payload of a synthesized reward trace.
`*hexutil.Big` / `*common.Address` pointers become `Option`. -/
structure TraceRewardAction where
  value : Option Int
  author : Option Address
  rewardType : String

/-- ParityTrace: one trace record in Parity/OpenEthereum format. Pointer
fields (`*common.Hash`, `*uint64`) become `Option`; the `Result`
`interface{}` field becomes `Option Json` (Go `nil` = `none`). -/
structure ParityTrace where
  action : TraceRewardAction
  blockHash : Hash
  blockNumber : Nat
  error : String
  result : Option Json
  subtraces : Nat
  traceAddress : List Nat
  transactionHash : Option Hash
  transactionPosition : Option Nat
  type : String

/-- One per-transaction result of `traceBlockByNumber`: the `.Result` field
holds a raw payload that `Block` re-decodes. We model the payload as the
`Json` value it parses to. -/
structure TxTraceResult where
  result : Json

/-- Structured rendering of the `error` values this file creates with
`fmt.Errorf`, keeping the numbers the messages name. Upstream collaborator
errors are carried verbatim as strings. -/
inductive TraceError where
  | blockNotFound (number : BlockNumber)
  | startBlockNotFound (n : Nat)
  | endBlockNotFound (n : Nat)
  | invalidRange (endNum : Nat) (startNum : Nat)
  | upstream (msg : String)
  | decodeFailure (msg : String)
deriving DecidableEq

/-- The external collaborators consumed by the API surface, as uninterpreted
functions: block lookup (pending / latest / by number), consensus reward
computation (`ethash.GetRewards`), and the five tracer entry points. -/
structure Env where
  pendingBlock : Option Types.Block
  currentBlock : Option Types.Block
  getBlockByNumber : Nat → Option Types.Block
  chainConfig : ChainConfig
  getRewards : ChainConfig → Types.Header → List Types.Header → Int × List Int
  traceBlockByNumber : BlockNumber → TraceConfig → Except String (List TxTraceResult)
  traceChain : Types.Block → Types.Block → TraceConfig → Except String Subscription
  traceCall : Nat → Nat → TraceConfig → Except String Json
  traceCallMany : List Nat → Nat → TraceConfig → Except String Json
  traceTransaction : Hash → TraceConfig → Except String Json

/-- setTraceConfigDefaultTracer sets the default tracer to "callTracerParity"
if none set. A `nil` config pointer becomes the zero-valued config first. -/
def setTraceConfigDefaultTracer (config? : Option TraceConfig) : TraceConfig :=
  let config : TraceConfig :=
    match config? with
    | none => { tracer := none, nestedTraceOutput := false }
    | some c => c
  match config.tracer with
  | none => { config with tracer := some "callTracerParity" }
  | some _ => config

/-- decorateNestedTraceResponse formats trace results the way Parity does:
a single-key JSON object selected by the tracer identifier. -/
def decorateNestedTraceResponse (res : Json) (tracer : String) : Json :=
  if tracer = "callTracerParity" then Json.obj [("trace", res)]
  else if tracer = "stateDiffTracer" then Json.obj [("stateDiff", res)]
  else res

/-- decorateResponse applies formatting to trace results if needed. In the
source it returns `(interface\x7b\x7d, error)` with the error statically
`nil`, so it is modelled as returning the value alone. -/
def decorateResponse (res : Json) (config? : Option TraceConfig) : Json :=
  match config? with
  | some config =>
    match config.tracer with
    | some tracer =>
      if config.nestedTraceOutput then decorateNestedTraceResponse res tracer
      else res
    | none => res
  | none => res

/-- The record built for one rewarded uncle inside the loop of
`traceBlockUncleRewards`; unsigned Go struct fields keep their zero values
(`Error ""`, `Result nil`, `Subtraces 0`, `TransactionHash nil`,
`TransactionPosition nil`). -/
def uncleRewardTrace (block : Types.Block) (uncle : Types.Header)
    (reward : Int) : ParityTrace :=
  { type := "reward"
    action :=
      { value := some reward
        author := some uncle.coinbase
        rewardType := "uncle" }
    traceAddress := []
    blockNumber := block.header.number
    blockHash := block.hash
    error := ""
    result := none
    subtraces := 0
    transactionHash := none
    transactionPosition := none }

/-- traceBlockReward synthesizes the single block-reward record. In the
source it returns `(*ParityTrace, error)` with the error statically `nil`.
Unset Go struct fields keep their zero values. -/
def traceBlockReward (env : Env) (block : Types.Block)
    (_config : TraceConfig) : ParityTrace :=
  let minerReward := (env.getRewards env.chainConfig block.header block.uncles).1
  let coinbase := block.header.coinbase
  { type := "reward"
    action :=
      { value := some minerReward
        author := some coinbase
        rewardType := "block" }
    traceAddress := []
    blockHash := block.hash
    blockNumber := block.header.number
    error := ""
    result := none
    subtraces := 0
    transactionHash := none
    transactionPosition := none }

/-- The loop of `traceBlockUncleRewards`: `for i, uncle := range uncles`,
writing `results[i]` only when `i < len(uncleRewards)`. `List.set` out of
range is a no-op, exactly like the guarded Go write. -/
def fillUncles (uncleRewards : List Int) (block : Types.Block) :
    List Types.Header → Nat → List (Option ParityTrace) → List (Option ParityTrace)
  | [], _, results => results
  | uncle :: rest, i, results =>
    fillUncles uncleRewards block rest (i + 1)
      (if i < uncleRewards.length then
        results.set i (some (uncleRewardTrace block uncle (uncleRewards.getD i 0)))
      else results)

/-- traceBlockUncleRewards synthesizes uncle-reward records:
`results := make([]*ParityTrace, len(uncleRewards))` (all `nil` = `none`),
then the guarded fill loop over the block's uncles. In the source it returns
`([]*ParityTrace, error)` with the error statically `nil`. -/
def traceBlockUncleRewards (env : Env) (block : Types.Block)
    (_config : TraceConfig) : List (Option ParityTrace) :=
  let uncleRewards := (env.getRewards env.chainConfig block.header block.uncles).2
  fillUncles uncleRewards block block.uncles 0
    (List.replicate uncleRewards.length none)

/-- One element of the `[]interface\x7b\x7d` response slice built by `Block`:
a decoded per-transaction entry, a reward record pointer, or a `nil` reward
record pointer. -/
inductive ResponseEntry where
  | txEntry (payload : Json)
  | rewardEntry (t : ParityTrace)
  | nullEntry

/-- Appending a `*ParityTrace` (possibly `nil`) to the `[]interface\x7b\x7d`
response slice. -/
def uncleEntry : Option ParityTrace → ResponseEntry
  | some t => ResponseEntry.rewardEntry t
  | none => ResponseEntry.nullEntry

/-- `json.Unmarshal(raw, &tmp)` with `tmp []interface\x7b\x7d`: succeeds
exactly when the payload is a JSON array. -/
def asArray : Json → Except String (List Json)
  | Json.arr elems => Except.ok elems
  | _ => Except.error "cannot unmarshal traced result into a sequence"

/-- The aggregation loop of `Block`: decode each per-transaction result as a
sequence and splice the elements in order, aborting on the first decode
failure. -/
def flattenResults : List TxTraceResult → Except String (List Json)
  | [] => Except.ok []
  | r :: rest =>
    match asArray r.result with
    | Except.error e => Except.error e
    | Except.ok tmp =>
      match flattenResults rest with
      | Except.error e => Except.error e
      | Except.ok flatRest => Except.ok (tmp ++ flatRest)

/-- The block-reference switch at the top of `Block`: pending / latest
sentinels, otherwise lookup by `uint64(number)` (two's-complement cast). -/
def resolveBlock (env : Env) (number : BlockNumber) : Option Types.Block :=
  if number = PendingBlockNumber then env.pendingBlock
  else if number = LatestBlockNumber then env.currentBlock
  else env.getBlockByNumber ((number % (2 : Int) ^ 64).toNat)

namespace PrivateTraceAPI

/-- Block traces a whole block: resolve the block, resolve the config,
run the transaction tracer, synthesize reward records, and merge:
flattened per-transaction entries, then the block reward, then the
uncle-reward slice (including any `nil` entries), aborting on any error. -/
def Block (env : Env) (number : BlockNumber) (config? : Option TraceConfig) :
    Except TraceError (List ResponseEntry) :=
  match resolveBlock env number with
  | none => Except.error (TraceError.blockNotFound number)
  | some block =>
    let config := setTraceConfigDefaultTracer config?
    match env.traceBlockByNumber number config with
    | Except.error e => Except.error (TraceError.upstream e)
    | Except.ok traceResults =>
      let traceReward := traceBlockReward env block config
      let traceUncleRewards := traceBlockUncleRewards env block config
      match flattenResults traceResults with
      | Except.error e => Except.error (TraceError.decodeFailure e)
      | Except.ok flat =>
        Except.ok (flat.map ResponseEntry.txEntry
          ++ ResponseEntry.rewardEntry traceReward :: traceUncleRewards.map uncleEntry)

/-- Transaction traces a single transaction by hash after resolving the
config; no reward synthesis, no decoration. -/
def Transaction (env : Env) (hash : Hash) (config? : Option TraceConfig) :
    Except String Json :=
  env.traceTransaction hash (setTraceConfigDefaultTracer config?)

/-- Filter validates a block range and dispatches a chain trace: both
endpoints must resolve, and the end block's number must strictly exceed the
start block's number (`from.Number().Cmp(to.Number()) >= 0` rejects). -/
def Filter (env : Env) (args : TraceFilterArgs) (config? : Option TraceConfig) :
    Except TraceError Subscription :=
  let config := setTraceConfigDefaultTracer config?
  let start := args.fromBlock
  let endNum := args.toBlock
  match env.getBlockByNumber start, env.getBlockByNumber endNum with
  | none, _ => Except.error (TraceError.startBlockNotFound start)
  | some _, none => Except.error (TraceError.endBlockNotFound endNum)
  | some fromBlock, some toBlock =>
    if toBlock.header.number ≤ fromBlock.header.number then
      Except.error (TraceError.invalidRange endNum start)
    else
      match env.traceChain fromBlock toBlock config with
      | Except.error e => Except.error (TraceError.upstream e)
      | Except.ok sub => Except.ok sub

/-- Call traces a hypothetical transaction and decorates the result.
`ethapi.CallArgs` and `rpc.BlockNumberOrHash` are opaque here (`Nat`). -/
def Call (env : Env) (args : Nat) (blockNrOrHash : Nat)
    (config? : Option TraceConfig) : Except String Json :=
  let config := setTraceConfigDefaultTracer config?
  match env.traceCall args blockNrOrHash config with
  | Except.error e => Except.error e
  | Except.ok res => Except.ok (decorateResponse res (some config))

/-- CallMany traces a batch of hypothetical transactions; the result is
returned without decoration. -/
def CallMany (env : Env) (txs : List Nat) (blockNrOrHash : Nat)
    (config? : Option TraceConfig) : Except String Json :=
  let config := setTraceConfigDefaultTracer config?
  match env.traceCallMany txs blockNrOrHash config with
  | Except.error e => Except.error e
  | Except.ok res => Except.ok res

end PrivateTraceAPI

/-! ### Sample environments used by witness theorems -/

/-- A block with one uncle, used in concrete witnesses. -/
def wBlock : Types.Block :=
  { header := { coinbase := 5, number := 100 }
    uncles := [{ coinbase := 7, number := 99 }]
    hash := 42 }

/-- An environment whose tracers return fixed values, used in witnesses. -/
def wEnv : Env :=
  { pendingBlock := none
    currentBlock := none
    getBlockByNumber := fun n => if n = 100 then some wBlock else none
    chainConfig := 0
    getRewards := fun _ _ us => (3, us.map fun _ => 2)
    traceBlockByNumber := fun _ _ =>
      Except.ok [⟨Json.arr [Json.num 1]⟩, ⟨Json.arr [Json.num 2, Json.num 3]⟩]
    traceChain := fun _ _ _ => Except.ok 77
    traceCall := fun _ _ _ => Except.ok (Json.num 1)
    traceCallMany := fun _ _ _ => Except.ok (Json.num 2)
    traceTransaction := fun _ _ => Except.ok Json.null }

/-- A block with two uncles, used in concrete witnesses. -/
def wBlock2 : Types.Block :=
  { header := { coinbase := 5, number := 100 }
    uncles := [{ coinbase := 7, number := 99 }, { coinbase := 8, number := 98 }]
    hash := 43 }

/-- A config with the tracer already set, used in concrete witnesses. -/
def cfg0 : TraceConfig :=
  { tracer := some "callTracerParity", nestedTraceOutput := false }

/-- Environment whose consensus reward list has a single entry, shorter than
`wBlock2`'s uncle list. -/
def wShortEnv : Env :=
  { wEnv with getRewards := fun _ _ _ => (3, [2]) }

/-- Environment whose consensus reward list has three entries, longer than
`wBlock`'s uncle list. -/
def wLongEnv : Env :=
  { wEnv with getRewards := fun _ _ _ => (3, [2, 2, 2]) }

/-- Environment in which no block resolves. -/
def wEmptyEnv : Env :=
  { wEnv with getBlockByNumber := fun _ => none }

/-- Environment whose transaction tracer fails. -/
def wUpstreamEnv : Env :=
  { wEnv with traceBlockByNumber := fun _ _ => Except.error "boom" }

/-- Environment whose transaction tracer yields a payload that is not a
sequence. -/
def wDecodeEnv : Env :=
  { wEnv with traceBlockByNumber := fun _ _ => Except.ok [⟨Json.num 1⟩] }

/-- An empty block at number `n`, used for range-validation witnesses. -/
def wChainBlock (n : Nat) : Types.Block :=
  { header := { coinbase := 0, number := n }, uncles := [], hash := n }

/-- Environment with blocks 9, 10 and 11 only, used for range-validation
witnesses. -/
def wChainEnv : Env :=
  { wEnv with getBlockByNumber := fun n =>
      if n = 9 ∨ n = 10 ∨ n = 11 then some (wChainBlock n) else none }

/-- Range-trace arguments with only the block bounds set. -/
def mkFilterArgs (a bNum : Nat) : TraceFilterArgs :=
  { fromBlock := a, toBlock := bNum, fromAddress := none, toAddress := none
    after := 0, count := 0 }

/-! ### Config resolver (claims C3, C4) -/

/-- C3: `setTraceConfigDefaultTracer` turns an absent config into an empty
one, fills in the default tracer identifier "callTracerParity" when the
tracer is unset, and never changes a caller-supplied tracer identifier. -/
theorem setTraceConfigDefaultTracer_defaults :
    (setTraceConfigDefaultTracer none =
      { tracer := some "callTracerParity", nestedTraceOutput := false }) ∧
    (∀ c : TraceConfig, c.tracer = none →
      setTraceConfigDefaultTracer (some c) =
        { c with tracer := some "callTracerParity" }) ∧
    (∀ (c : TraceConfig) (t : String), c.tracer = some t →
      setTraceConfigDefaultTracer (some c) = c) := by
  refine ⟨rfl, ?_, ?_⟩
  · intro c hc
    simp [setTraceConfigDefaultTracer, hc]
  · intro c t hc
    simp [setTraceConfigDefaultTracer, hc]

/-- Witness for C3 at concrete configs. -/
theorem setTraceConfigDefaultTracer_defaults_witness :
    (({ tracer := none, nestedTraceOutput := true } : TraceConfig).tracer = none ∧
      setTraceConfigDefaultTracer (some { tracer := none, nestedTraceOutput := true }) =
        { tracer := some "callTracerParity", nestedTraceOutput := true }) ∧
    (({ tracer := some "x", nestedTraceOutput := false } : TraceConfig).tracer = some "x" ∧
      setTraceConfigDefaultTracer (some { tracer := some "x", nestedTraceOutput := false }) =
        { tracer := some "x", nestedTraceOutput := false }) :=
  ⟨⟨rfl, setTraceConfigDefaultTracer_defaults.2.1 _ rfl⟩,
   ⟨rfl, setTraceConfigDefaultTracer_defaults.2.2 _ "x" rfl⟩⟩

/-- C4: the config resolver is idempotent, and resolving never changes an
already-set tracer identifier. -/
theorem setTraceConfigDefaultTracer_idempotent :
    (∀ c? : Option TraceConfig,
      setTraceConfigDefaultTracer (some (setTraceConfigDefaultTracer c?)) =
        setTraceConfigDefaultTracer c?) ∧
    (∀ (c : TraceConfig) (t : String), c.tracer = some t →
      (setTraceConfigDefaultTracer (some c)).tracer = some t) := by
  constructor
  · intro c?
    cases c? with
    | none => rfl
    | some c =>
      cases hc : c.tracer with
      | none => simp [setTraceConfigDefaultTracer, hc]
      | some t => simp [setTraceConfigDefaultTracer, hc]
  · intro c t hc
    simp [setTraceConfigDefaultTracer, hc]

/-- Witness for C4 at a concrete config with a set tracer. -/
theorem setTraceConfigDefaultTracer_idempotent_witness :
    (({ tracer := some "stateDiffTracer", nestedTraceOutput := true } : TraceConfig).tracer =
      some "stateDiffTracer") ∧
    (setTraceConfigDefaultTracer
        (some { tracer := some "stateDiffTracer", nestedTraceOutput := true })).tracer =
      some "stateDiffTracer" :=
  ⟨rfl, setTraceConfigDefaultTracer_idempotent.2 _ "stateDiffTracer" rfl⟩

/-! ### Response decorator (claim C5) -/

/-- C5: with nested output requested and a tracer set, `decorateResponse`
wraps under "trace" for callTracerParity, under "stateDiff" for
stateDiffTracer, and leaves any other tracer's result unchanged; with
nested output off or the tracer unset (or the config absent) the result is
returned unchanged. -/
theorem decorateResponse_shapes (r : Json) (c : TraceConfig) :
    (c.nestedTraceOutput = true → c.tracer = some "callTracerParity" →
      decorateResponse r (some c) = Json.obj [("trace", r)]) ∧
    (c.nestedTraceOutput = true → c.tracer = some "stateDiffTracer" →
      decorateResponse r (some c) = Json.obj [("stateDiff", r)]) ∧
    (∀ t : String, c.nestedTraceOutput = true → c.tracer = some t →
      t ≠ "callTracerParity" → t ≠ "stateDiffTracer" →
      decorateResponse r (some c) = r) ∧
    (c.nestedTraceOutput = false → decorateResponse r (some c) = r) ∧
    (c.tracer = none → decorateResponse r (some c) = r) ∧
    decorateResponse r none = r := by
  refine ⟨?_, ?_, ?_, ?_, ?_, rfl⟩
  · intro hn ht
    simp [decorateResponse, decorateNestedTraceResponse, hn, ht]
  · intro hn ht
    simp [decorateResponse, decorateNestedTraceResponse, hn, ht]
  · intro t hn ht ht1 ht2
    simp [decorateResponse, decorateNestedTraceResponse, hn, ht, ht1, ht2]
  · intro hn
    cases hc : c.tracer with
    | none => simp [decorateResponse, hc]
    | some t => simp [decorateResponse, hc, hn]
  · intro hc
    simp [decorateResponse, hc]

/-- Witness for C5 at a concrete result and concrete configs covering each
branch. -/
theorem decorateResponse_shapes_witness :
    (({ tracer := some "callTracerParity", nestedTraceOutput := true } :
        TraceConfig).nestedTraceOutput = true ∧
      decorateResponse (Json.str "x")
          (some { tracer := some "callTracerParity", nestedTraceOutput := true }) =
        Json.obj [("trace", Json.str "x")]) ∧
    (decorateResponse (Json.str "x")
        (some { tracer := some "stateDiffTracer", nestedTraceOutput := true }) =
      Json.obj [("stateDiff", Json.str "x")]) ∧
    (decorateResponse (Json.str "x")
        (some { tracer := some "vmTracer", nestedTraceOutput := true }) = Json.str "x") ∧
    (decorateResponse (Json.str "x")
        (some { tracer := some "callTracerParity", nestedTraceOutput := false }) =
      Json.str "x") ∧
    (decorateResponse (Json.str "x") (some { tracer := none, nestedTraceOutput := true }) =
      Json.str "x") :=
  ⟨⟨rfl, (decorateResponse_shapes (Json.str "x") _).1 rfl rfl⟩,
   (decorateResponse_shapes (Json.str "x") _).2.1 rfl rfl,
   (decorateResponse_shapes (Json.str "x") _).2.2.1 "vmTracer" rfl rfl
     (by decide) (by decide),
   (decorateResponse_shapes (Json.str "x") _).2.2.2.1 rfl,
   (decorateResponse_shapes (Json.str "x") _).2.2.2.2.1 rfl⟩

/-! ### Call vs CallMany decoration (claim C8) -/

/-- C8: on a successful hypothetical-call trace, `Call` applies
`decorateResponse` to the tracer's result (so with nested output and the
default parity call tracer the result is wrapped under "trace"), whereas
`CallMany` returns the tracer's result undecorated. -/
theorem call_decorates_callMany_not (env : Env) (args blockRef : Nat)
    (txs : List Nat) (c? : Option TraceConfig) (r r' : Json) :
    env.traceCall args blockRef (setTraceConfigDefaultTracer c?) = Except.ok r →
    env.traceCallMany txs blockRef (setTraceConfigDefaultTracer c?) = Except.ok r' →
    PrivateTraceAPI.Call env args blockRef c? =
      Except.ok (decorateResponse r (some (setTraceConfigDefaultTracer c?))) ∧
    ((setTraceConfigDefaultTracer c?).nestedTraceOutput = true →
      (setTraceConfigDefaultTracer c?).tracer = some "callTracerParity" →
      PrivateTraceAPI.Call env args blockRef c? =
        Except.ok (Json.obj [("trace", r)])) ∧
    PrivateTraceAPI.CallMany env txs blockRef c? = Except.ok r' := by
  intro hc hm
  refine ⟨?_, ?_, ?_⟩
  · simp [PrivateTraceAPI.Call, hc]
  · intro hn ht
    simp [PrivateTraceAPI.Call, hc, decorateResponse, decorateNestedTraceResponse, hn, ht]
  · simp [PrivateTraceAPI.CallMany, hm]

/-- Witness for C8: in `wEnv` with a nested-output config, `Call` wraps the
tracer result under "trace" while `CallMany` returns its result bare. -/
theorem call_decorates_callMany_not_witness :
    (wEnv.traceCall 0 0
        (setTraceConfigDefaultTracer (some { tracer := none, nestedTraceOutput := true })) =
      Except.ok (Json.num 1)) ∧
    (wEnv.traceCallMany [0] 0
        (setTraceConfigDefaultTracer (some { tracer := none, nestedTraceOutput := true })) =
      Except.ok (Json.num 2)) ∧
    (PrivateTraceAPI.Call wEnv 0 0 (some { tracer := none, nestedTraceOutput := true }) =
      Except.ok (Json.obj [("trace", Json.num 1)])) ∧
    (PrivateTraceAPI.CallMany wEnv [0] 0 (some { tracer := none, nestedTraceOutput := true }) =
      Except.ok (Json.num 2)) :=
  ⟨rfl, rfl,
   (call_decorates_callMany_not wEnv 0 0 [0]
       (some { tracer := none, nestedTraceOutput := true })
       (Json.num 1) (Json.num 2) rfl rfl).2.1 rfl rfl,
   (call_decorates_callMany_not wEnv 0 0 [0]
       (some { tracer := none, nestedTraceOutput := true })
       (Json.num 1) (Json.num 2) rfl rfl).2.2⟩

/-! ### Characterization of the uncle-reward fill loop -/

/-- The fill loop never changes the length of the results slice. -/
theorem fillUncles_length (rw : List Int) (b : Types.Block) :
    ∀ (us : List Types.Header) (i : Nat) (res : List (Option ParityTrace)),
      (fillUncles rw b us i res).length = res.length := by
  intro us
  induction us with
  | nil => intro i res; rfl
  | cons u rest ih =>
    intro i res
    simp only [fillUncles]
    rw [ih]
    split <;> simp

/-- Pointwise description of the fill loop: position `j` holds the record
for uncle `j - i` exactly when the loop reaches it and the guard
`j < len(uncleRewards)` lets it write inside the slice; any other position
keeps its initial value. -/
theorem fillUncles_getElem? (rw : List Int) (b : Types.Block) :
    ∀ (us : List Types.Header) (i j : Nat) (res : List (Option ParityTrace)),
      (fillUncles rw b us i res)[j]? =
        if i ≤ j ∧ j - i < us.length ∧ j < rw.length ∧ j < res.length then
          some (some (uncleRewardTrace b (us.getD (j - i) default) (rw.getD j 0)))
        else res[j]? := by
  intro us
  induction us with
  | nil =>
    intro i j res
    simp only [fillUncles, List.length_nil]
    rw [if_neg (by omega)]
  | cons u rest ih =>
    intro i j res
    simp only [fillUncles]
    by_cases hir : i < rw.length
    · rw [if_pos hir, ih]
      simp only [List.length_set, List.length_cons]
      by_cases h2 : i ≤ j ∧ j - i < rest.length + 1 ∧ j < rw.length ∧ j < res.length
      · conv_rhs => rw [if_pos h2]
        by_cases h1 : i + 1 ≤ j ∧ j - (i + 1) < rest.length ∧ j < rw.length ∧
            j < res.length
        · conv_lhs => rw [if_pos h1]
          have hji : j - i = (j - (i + 1)) + 1 := by omega
          rw [hji]
          simp
        · conv_lhs => rw [if_neg h1]
          have hji : j = i := by omega
          subst hji
          rw [List.getElem?_set_self (by omega)]
          simp
      · conv_rhs => rw [if_neg h2]
        conv_lhs => rw [if_neg (show ¬(i + 1 ≤ j ∧ j - (i + 1) < rest.length ∧
          j < rw.length ∧ j < res.length) by omega)]
        by_cases hji : i = j
        · subst hji
          rw [List.getElem?_set, if_pos rfl, if_neg (by omega),
            List.getElem?_eq_none (by omega)]
        · rw [List.getElem?_set_ne hji]
    · rw [if_neg hir, ih]
      simp only [List.length_cons]
      by_cases h2 : i ≤ j ∧ j - i < rest.length + 1 ∧ j < rw.length ∧ j < res.length
      · exact absurd h2.2.2.1 (by omega)
      · conv_rhs => rw [if_neg h2]
        conv_lhs => rw [if_neg (show ¬(i + 1 ≤ j ∧ j - (i + 1) < rest.length ∧
          j < rw.length ∧ j < res.length) by omega)]

/-- `traceBlockUncleRewards` has one slot per consensus uncle reward;
slot `j` holds the record for uncle `j` when that uncle exists, and stays
`nil` when the reward list outruns the uncle list. -/
theorem traceBlockUncleRewards_getElem? (env : Env) (b : Types.Block)
    (cfg : TraceConfig) (j : Nat) :
    (traceBlockUncleRewards env b cfg)[j]? =
      if j < (env.getRewards env.chainConfig b.header b.uncles).2.length then
        some (if j < b.uncles.length then
          some (uncleRewardTrace b (b.uncles.getD j default)
            ((env.getRewards env.chainConfig b.header b.uncles).2.getD j 0))
        else none)
      else none := by
  simp only [traceBlockUncleRewards]
  rw [fillUncles_getElem?]
  simp only [List.length_replicate, List.getElem?_replicate]
  by_cases h1 : j < (env.getRewards env.chainConfig b.header b.uncles).2.length
  · by_cases h2 : j < b.uncles.length
    · rw [if_pos ⟨by omega, by omega, h1, h1⟩, if_pos h1, if_pos h2]
      simp
    · rw [if_neg (by omega), if_pos h1, if_pos h1, if_neg h2]
  · rw [if_neg (by omega), if_neg h1, if_neg h1]

/-- The uncle-reward slice has exactly as many slots as the consensus
uncle-reward list. -/
theorem traceBlockUncleRewards_length (env : Env) (b : Types.Block)
    (cfg : TraceConfig) :
    (traceBlockUncleRewards env b cfg).length =
      (env.getRewards env.chainConfig b.header b.uncles).2.length := by
  simp only [traceBlockUncleRewards]
  rw [fillUncles_length]
  simp

/-- When the reward list matches the uncle list in length, the slice is the
uncle-reward record for each uncle, in uncle order. -/
theorem traceBlockUncleRewards_eq_range (env : Env) (b : Types.Block)
    (cfg : TraceConfig)
    (h : (env.getRewards env.chainConfig b.header b.uncles).2.length =
      b.uncles.length) :
    traceBlockUncleRewards env b cfg =
      (List.range b.uncles.length).map (fun i =>
        some (uncleRewardTrace b (b.uncles.getD i default)
          ((env.getRewards env.chainConfig b.header b.uncles).2.getD i 0))) := by
  apply List.ext_getElem?
  intro n
  rw [traceBlockUncleRewards_getElem?, List.getElem?_map]
  by_cases hn : n < b.uncles.length
  · rw [List.getElem?_range hn]
    simp [h, hn]
  · rw [List.getElem?_eq_none (by rw [List.length_range]; omega)]
    simp [h, hn]

/-! ### Reward record shape (claim C2) -/

/-- C2: every synthesized "reward" record — the block-reward record and
every non-nil uncle-reward record — has `subtraces = 0`,
`traceAddress = []`, `transactionHash = null`, `transactionPosition = null`,
and an action holding a value and an author, with rewardType "block" for
the block record and "uncle" for uncle records. -/
theorem reward_trace_shape (env : Env) (b : Types.Block) (cfg : TraceConfig) :
    ((traceBlockReward env b cfg).type = "reward" ∧
      (traceBlockReward env b cfg).subtraces = 0 ∧
      (traceBlockReward env b cfg).traceAddress = [] ∧
      (traceBlockReward env b cfg).transactionHash = none ∧
      (traceBlockReward env b cfg).transactionPosition = none ∧
      (traceBlockReward env b cfg).action.rewardType = "block" ∧
      (traceBlockReward env b cfg).action.value =
        some (env.getRewards env.chainConfig b.header b.uncles).1 ∧
      (traceBlockReward env b cfg).action.author = some b.header.coinbase) ∧
    (∀ o ∈ traceBlockUncleRewards env b cfg, ∀ t : ParityTrace, o = some t →
      t.type = "reward" ∧ t.subtraces = 0 ∧ t.traceAddress = [] ∧
      t.transactionHash = none ∧ t.transactionPosition = none ∧
      t.action.rewardType = "uncle" ∧ t.action.value.isSome = true ∧
      t.action.author.isSome = true) := by
  constructor
  · exact ⟨rfl, rfl, rfl, rfl, rfl, rfl, rfl, rfl⟩
  · intro o ho t hot
    subst hot
    obtain ⟨n, hn⟩ := List.mem_iff_getElem?.mp ho
    rw [traceBlockUncleRewards_getElem?] at hn
    by_cases h1 : n < (env.getRewards env.chainConfig b.header b.uncles).2.length
    · rw [if_pos h1] at hn
      by_cases h2 : n < b.uncles.length
      · rw [if_pos h2] at hn
        obtain rfl : uncleRewardTrace b (b.uncles.getD n default)
            ((env.getRewards env.chainConfig b.header b.uncles).2.getD n 0) = t :=
          Option.some.inj (Option.some.inj hn)
        exact ⟨rfl, rfl, rfl, rfl, rfl, rfl, rfl, rfl⟩
      · rw [if_neg h2] at hn
        exact Option.noConfusion (Option.some.inj hn)
    · rw [if_neg h1] at hn
      exact Option.noConfusion hn

/-- Witness for C2: the single uncle-reward record of `wBlock` under `wEnv`
is a member of the synthesized slice and has the reward shape. -/
theorem reward_trace_shape_witness :
    (some (uncleRewardTrace wBlock { coinbase := 7, number := 99 } 2) ∈
      traceBlockUncleRewards wEnv wBlock cfg0) ∧
    (uncleRewardTrace wBlock { coinbase := 7, number := 99 } 2).action.rewardType =
      "uncle" ∧
    (uncleRewardTrace wBlock { coinbase := 7, number := 99 } 2).subtraces = 0 ∧
    (uncleRewardTrace wBlock { coinbase := 7, number := 99 } 2).transactionHash =
      none := by
  have hmem : some (uncleRewardTrace wBlock { coinbase := 7, number := 99 } 2) ∈
      traceBlockUncleRewards wEnv wBlock cfg0 := by
    have heq : traceBlockUncleRewards wEnv wBlock cfg0 =
        [some (uncleRewardTrace wBlock { coinbase := 7, number := 99 } 2)] := rfl
    rw [heq]
    exact List.mem_singleton.mpr rfl
  have h := (reward_trace_shape wEnv wBlock cfg0).2 _ hmem _ rfl
  exact ⟨hmem, h.2.2.2.2.2.1, h.2.1, h.2.2.2.1⟩

/-! ### Uncle-reward synthesis: rewarded and unrewarded uncles (claim C7) -/

/-- C7: each uncle whose index has a consensus reward amount yields exactly
one record, with rewardType "uncle" and the uncle's coinbase as author, at
its own index; an uncle whose index has no reward amount yields no record
at all (the slice simply ends at the reward-list length), and the records
for other uncles are unaffected. -/
theorem uncle_rewards_by_index (env : Env) (b : Types.Block) (cfg : TraceConfig) :
    (∀ (u : Types.Header) (r : Int),
      (uncleRewardTrace b u r).action.rewardType = "uncle" ∧
      (uncleRewardTrace b u r).action.author = some u.coinbase ∧
      (uncleRewardTrace b u r).action.value = some r) ∧
    (∀ i, i < b.uncles.length →
      i < (env.getRewards env.chainConfig b.header b.uncles).2.length →
      (traceBlockUncleRewards env b cfg)[i]? =
        some (some (uncleRewardTrace b (b.uncles.getD i default)
          ((env.getRewards env.chainConfig b.header b.uncles).2.getD i 0)))) ∧
    (∀ i, (env.getRewards env.chainConfig b.header b.uncles).2.length ≤ i →
      (traceBlockUncleRewards env b cfg)[i]? = none) := by
  refine ⟨fun u r => ⟨rfl, rfl, rfl⟩, ?_, ?_⟩
  · intro i hU hR
    rw [traceBlockUncleRewards_getElem?, if_pos hR, if_pos hU]
  · intro i hR
    rw [traceBlockUncleRewards_getElem?, if_neg (by omega)]

/-- Witness for C7: `wBlock2` has two uncles but `wShortEnv` supplies a
single reward amount, so uncle 0 yields its record and uncle 1 yields
nothing. -/
theorem uncle_rewards_by_index_witness :
    (0 < wBlock2.uncles.length) ∧
    (0 < (wShortEnv.getRewards wShortEnv.chainConfig wBlock2.header
      wBlock2.uncles).2.length) ∧
    ((traceBlockUncleRewards wShortEnv wBlock2 cfg0)[0]? =
      some (some (uncleRewardTrace wBlock2 { coinbase := 7, number := 99 } 2))) ∧
    ((wShortEnv.getRewards wShortEnv.chainConfig wBlock2.header
      wBlock2.uncles).2.length ≤ 1) ∧
    ((traceBlockUncleRewards wShortEnv wBlock2 cfg0)[1]? = none) :=
  ⟨by decide, by decide,
   (uncle_rewards_by_index wShortEnv wBlock2 cfg0).2.1 0 (by decide) (by decide),
   by decide,
   (uncle_rewards_by_index wShortEnv wBlock2 cfg0).2.2 1 (by decide)⟩

/-! ### Block aggregation (claims C1, C9, C10) -/

/-- When block resolution, tracing and every per-transaction decode succeed,
`Block` returns the flattened transaction entries, then the block-reward
record, then the uncle-reward slice mapped into response entries. -/
theorem Block_ok_eq (env : Env) (number : BlockNumber) (c? : Option TraceConfig)
    (b : Types.Block) (trs : List TxTraceResult) (flat : List Json)
    (hb : resolveBlock env number = some b)
    (htr : env.traceBlockByNumber number (setTraceConfigDefaultTracer c?) =
      Except.ok trs)
    (hf : flattenResults trs = Except.ok flat) :
    PrivateTraceAPI.Block env number c? =
      Except.ok (flat.map ResponseEntry.txEntry
        ++ ResponseEntry.rewardEntry
            (traceBlockReward env b (setTraceConfigDefaultTracer c?))
          :: (traceBlockUncleRewards env b
            (setTraceConfigDefaultTracer c?)).map uncleEntry) := by
  simp only [PrivateTraceAPI.Block, hb, htr, hf]

/-- C1: for a block whose traced transaction results flatten to `N_flat`
entries and whose `U` uncles each have a matching consensus reward entry
(reward list and uncle list correspond one-to-one), `Block` returns exactly
`N_flat + 1 + U` records: the flattened transaction entries in block order,
the block-reward record at position `N_flat`, and the `U` uncle-reward
records in uncle order in the tail. -/
theorem block_trace_order (env : Env) (number : BlockNumber)
    (c? : Option TraceConfig) (b : Types.Block) (trs : List TxTraceResult)
    (flat : List Json)
    (hb : resolveBlock env number = some b)
    (htr : env.traceBlockByNumber number (setTraceConfigDefaultTracer c?) =
      Except.ok trs)
    (hf : flattenResults trs = Except.ok flat)
    (hlen : (env.getRewards env.chainConfig b.header b.uncles).2.length =
      b.uncles.length) :
    ∃ out, PrivateTraceAPI.Block env number c? = Except.ok out ∧
      out.length = flat.length + 1 + b.uncles.length ∧
      out.take flat.length = flat.map ResponseEntry.txEntry ∧
      out[flat.length]? = some (ResponseEntry.rewardEntry
        (traceBlockReward env b (setTraceConfigDefaultTracer c?))) ∧
      (∀ i, i < b.uncles.length →
        out[flat.length + 1 + i]? = some (ResponseEntry.rewardEntry
          (uncleRewardTrace b (b.uncles.getD i default)
            ((env.getRewards env.chainConfig b.header b.uncles).2.getD i 0)))) := by
  refine ⟨_, Block_ok_eq env number c? b trs flat hb htr hf, ?_, ?_, ?_, ?_⟩
  · simp only [List.length_append, List.length_map, List.length_cons,
      traceBlockUncleRewards_length, hlen]
    omega
  · rw [show flat.length = (flat.map ResponseEntry.txEntry).length by simp]
    simp
  · rw [List.getElem?_append_right (le_of_eq (by simp))]
    simp
  · intro i hi
    rw [List.getElem?_append_right (by simp only [List.length_map]; omega)]
    have hidx : flat.length + 1 + i - (flat.map ResponseEntry.txEntry).length =
        i + 1 := by
      simp only [List.length_map]
      omega
    rw [hidx, List.getElem?_cons_succ,
      traceBlockUncleRewards_eq_range env b _ hlen, List.map_map,
      List.getElem?_map, List.getElem?_range hi]
    simp [uncleEntry]

/-- Witness for C1: `wEnv` at block 100 has two traced transactions
flattening to three entries and one rewarded uncle, so `Block` returns five
records with the block reward at position 3. -/
theorem block_trace_order_witness :
    (resolveBlock wEnv 100 = some wBlock) ∧
    (wEnv.traceBlockByNumber 100 (setTraceConfigDefaultTracer none) =
      Except.ok [⟨Json.arr [Json.num 1]⟩, ⟨Json.arr [Json.num 2, Json.num 3]⟩]) ∧
    (flattenResults [⟨Json.arr [Json.num 1]⟩, ⟨Json.arr [Json.num 2, Json.num 3]⟩] =
      Except.ok [Json.num 1, Json.num 2, Json.num 3]) ∧
    ((wEnv.getRewards wEnv.chainConfig wBlock.header wBlock.uncles).2.length =
      wBlock.uncles.length) ∧
    (∃ out, PrivateTraceAPI.Block wEnv 100 none = Except.ok out ∧
      out.length = 3 + 1 + 1 ∧
      out.take 3 = [Json.num 1, Json.num 2, Json.num 3].map ResponseEntry.txEntry ∧
      out[(3 : Nat)]? = some (ResponseEntry.rewardEntry
        (traceBlockReward wEnv wBlock (setTraceConfigDefaultTracer none))) ∧
      (∀ i, i < 1 →
        out[3 + 1 + i]? = some (ResponseEntry.rewardEntry
          (uncleRewardTrace wBlock (wBlock.uncles.getD i default)
            ((wEnv.getRewards wEnv.chainConfig wBlock.header
              wBlock.uncles).2.getD i 0))))) :=
  ⟨rfl, rfl, rfl, rfl,
   block_trace_order wEnv 100 none wBlock
     [⟨Json.arr [Json.num 1]⟩, ⟨Json.arr [Json.num 2, Json.num 3]⟩]
     [Json.num 1, Json.num 2, Json.num 3] rfl rfl rfl rfl⟩

/-- C10: the uncle-reward slice has one slot per consensus reward entry,
not per uncle; slots at or beyond the uncle count stay nil, and `Block`
appends those nil entries to the response array. -/
theorem uncle_rewards_surplus_nulls (env : Env) (b : Types.Block)
    (cfg : TraceConfig) :
    ((traceBlockUncleRewards env b cfg).length =
      (env.getRewards env.chainConfig b.header b.uncles).2.length) ∧
    (∀ i, b.uncles.length ≤ i →
      i < (env.getRewards env.chainConfig b.header b.uncles).2.length →
      (traceBlockUncleRewards env b cfg)[i]? = some none) ∧
    (∀ (number : BlockNumber) (c? : Option TraceConfig)
        (trs : List TxTraceResult) (flat : List Json) (i : Nat),
      resolveBlock env number = some b →
      env.traceBlockByNumber number (setTraceConfigDefaultTracer c?) =
        Except.ok trs →
      flattenResults trs = Except.ok flat →
      setTraceConfigDefaultTracer c? = cfg →
      b.uncles.length ≤ i →
      i < (env.getRewards env.chainConfig b.header b.uncles).2.length →
      ∃ out, PrivateTraceAPI.Block env number c? = Except.ok out ∧
        out[flat.length + 1 + i]? = some ResponseEntry.nullEntry) := by
  refine ⟨traceBlockUncleRewards_length env b cfg, ?_, ?_⟩
  · intro i hU hR
    rw [traceBlockUncleRewards_getElem?, if_pos hR, if_neg (by omega)]
  · intro number c? trs flat i hb htr hf hcfg hU hR
    refine ⟨_, Block_ok_eq env number c? b trs flat hb htr hf, ?_⟩
    rw [List.getElem?_append_right (by simp only [List.length_map]; omega)]
    have hidx : flat.length + 1 + i - (flat.map ResponseEntry.txEntry).length =
        i + 1 := by
      simp only [List.length_map]
      omega
    rw [hidx, List.getElem?_cons_succ, List.getElem?_map, hcfg,
      traceBlockUncleRewards_getElem?, if_pos hR, if_neg (by omega)]
    rfl

/-- Witness for C10: `wLongEnv` supplies three reward entries for `wBlock`'s
single uncle; slot 1 is nil and `Block` places a null entry at position
3 + 1 + 1. -/
theorem uncle_rewards_surplus_nulls_witness :
    (wBlock.uncles.length ≤ 1) ∧
    (1 < (wLongEnv.getRewards wLongEnv.chainConfig wBlock.header
      wBlock.uncles).2.length) ∧
    ((traceBlockUncleRewards wLongEnv wBlock
      (setTraceConfigDefaultTracer none))[1]? = some none) ∧
    (resolveBlock wLongEnv 100 = some wBlock) ∧
    (∃ out, PrivateTraceAPI.Block wLongEnv 100 none = Except.ok out ∧
      out[3 + 1 + 1]? = some ResponseEntry.nullEntry) :=
  ⟨by decide, by decide,
   (uncle_rewards_surplus_nulls wLongEnv wBlock
     (setTraceConfigDefaultTracer none)).2.1 1 (by decide) (by decide),
   rfl,
   (uncle_rewards_surplus_nulls wLongEnv wBlock
     (setTraceConfigDefaultTracer none)).2.2 100 none
     [⟨Json.arr [Json.num 1]⟩, ⟨Json.arr [Json.num 2, Json.num 3]⟩]
     [Json.num 1, Json.num 2, Json.num 3] 1 rfl rfl rfl rfl (by decide) (by decide)⟩

/-- C9: any sub-step failure in `Block` — block resolution, the external
transaction tracer, or decoding a per-transaction payload as a sequence —
aborts the whole call with an error; a successful call implies every
sub-step succeeded, so partial results are never returned. (Reward
synthesis returns a statically-nil error in the source and cannot fail.) -/
theorem block_aborts_on_subfailure (env : Env) (number : BlockNumber)
    (c? : Option TraceConfig) :
    (resolveBlock env number = none →
      PrivateTraceAPI.Block env number c? =
        Except.error (TraceError.blockNotFound number)) ∧
    (∀ (b : Types.Block) (e : String), resolveBlock env number = some b →
      env.traceBlockByNumber number (setTraceConfigDefaultTracer c?) =
        Except.error e →
      PrivateTraceAPI.Block env number c? =
        Except.error (TraceError.upstream e)) ∧
    (∀ (b : Types.Block) (trs : List TxTraceResult) (e : String),
      resolveBlock env number = some b →
      env.traceBlockByNumber number (setTraceConfigDefaultTracer c?) =
        Except.ok trs →
      flattenResults trs = Except.error e →
      PrivateTraceAPI.Block env number c? =
        Except.error (TraceError.decodeFailure e)) ∧
    (∀ out, PrivateTraceAPI.Block env number c? = Except.ok out →
      ∃ (b : Types.Block) (trs : List TxTraceResult) (flat : List Json),
        resolveBlock env number = some b ∧
        env.traceBlockByNumber number (setTraceConfigDefaultTracer c?) =
          Except.ok trs ∧
        flattenResults trs = Except.ok flat ∧
        out = flat.map ResponseEntry.txEntry
          ++ ResponseEntry.rewardEntry
              (traceBlockReward env b (setTraceConfigDefaultTracer c?))
            :: (traceBlockUncleRewards env b
              (setTraceConfigDefaultTracer c?)).map uncleEntry) := by
  refine ⟨?_, ?_, ?_, ?_⟩
  · intro h
    simp only [PrivateTraceAPI.Block, h]
  · intro b e hb he
    simp only [PrivateTraceAPI.Block, hb, he]
  · intro b trs e hb htr hf
    simp only [PrivateTraceAPI.Block, hb, htr, hf]
  · intro out hout
    simp only [PrivateTraceAPI.Block] at hout
    split at hout
    · exact Except.noConfusion hout
    · rename_i b hres
      split at hout
      · exact Except.noConfusion hout
      · rename_i trs htr
        split at hout
        · exact Except.noConfusion hout
        · rename_i flat hf
          exact ⟨b, trs, flat, hres, htr, hf, (Except.ok.inj hout).symm⟩

/-- Witness for C9: block 100 missing, a failing tracer, and a non-sequence
payload each abort `Block` with the corresponding error. -/
theorem block_aborts_on_subfailure_witness :
    (resolveBlock wEmptyEnv 100 = none ∧
      PrivateTraceAPI.Block wEmptyEnv 100 none =
        Except.error (TraceError.blockNotFound 100)) ∧
    (resolveBlock wUpstreamEnv 100 = some wBlock ∧
      wUpstreamEnv.traceBlockByNumber 100 (setTraceConfigDefaultTracer none) =
        Except.error "boom" ∧
      PrivateTraceAPI.Block wUpstreamEnv 100 none =
        Except.error (TraceError.upstream "boom")) ∧
    (flattenResults [⟨Json.num 1⟩] =
      Except.error "cannot unmarshal traced result into a sequence" ∧
      PrivateTraceAPI.Block wDecodeEnv 100 none =
        Except.error (TraceError.decodeFailure
          "cannot unmarshal traced result into a sequence")) :=
  ⟨⟨rfl, (block_aborts_on_subfailure wEmptyEnv 100 none).1 rfl⟩,
   ⟨rfl, rfl,
    (block_aborts_on_subfailure wUpstreamEnv 100 none).2.1 wBlock "boom" rfl rfl⟩,
   ⟨rfl,
    (block_aborts_on_subfailure wDecodeEnv 100 none).2.2.1 wBlock
      [⟨Json.num 1⟩] "cannot unmarshal traced result into a sequence" rfl rfl rfl⟩⟩

/-! ### Range validation (claim C6) -/

/-- C6: `Filter` fails with a NotFound error naming the missing block number
and identifying the missing endpoint (start or end), and fails with an
InvalidRange error naming both numbers unless the end block's number is
strictly greater than the start block's number; with both endpoints
resolved and a strictly increasing range it delegates to the chain
tracer. -/
theorem filter_range_validation (env : Env) (args : TraceFilterArgs)
    (c? : Option TraceConfig) :
    (env.getBlockByNumber args.fromBlock = none →
      PrivateTraceAPI.Filter env args c? =
        Except.error (TraceError.startBlockNotFound args.fromBlock)) ∧
    (∀ fb : Types.Block, env.getBlockByNumber args.fromBlock = some fb →
      env.getBlockByNumber args.toBlock = none →
      PrivateTraceAPI.Filter env args c? =
        Except.error (TraceError.endBlockNotFound args.toBlock)) ∧
    (∀ fb tb : Types.Block, env.getBlockByNumber args.fromBlock = some fb →
      env.getBlockByNumber args.toBlock = some tb →
      tb.header.number ≤ fb.header.number →
      PrivateTraceAPI.Filter env args c? =
        Except.error (TraceError.invalidRange args.toBlock args.fromBlock)) ∧
    (∀ fb tb : Types.Block, env.getBlockByNumber args.fromBlock = some fb →
      env.getBlockByNumber args.toBlock = some tb →
      fb.header.number < tb.header.number →
      PrivateTraceAPI.Filter env args c? =
        (env.traceChain fb tb (setTraceConfigDefaultTracer c?)).mapError
          TraceError.upstream) := by
  refine ⟨?_, ?_, ?_, ?_⟩
  · intro h
    simp only [PrivateTraceAPI.Filter, h]
  · intro fb hf ht
    simp only [PrivateTraceAPI.Filter, hf, ht]
  · intro fb tb hf ht hle
    simp only [PrivateTraceAPI.Filter, hf, ht]
    rw [if_pos hle]
  · intro fb tb hf ht hlt
    simp only [PrivateTraceAPI.Filter, hf, ht]
    rw [if_neg (by omega)]
    cases h : env.traceChain fb tb (setTraceConfigDefaultTracer c?) <;>
      simp [Except.mapError]

/-- Witness for C6 on a chain holding only blocks 9, 10 and 11:
`from=999999` is NotFound naming 999999; `from=10,to=999999` is NotFound
naming the end; `from=10,to=10` and `from=10,to=9` are InvalidRange naming
both numbers; `from=10,to=11` delegates and succeeds. -/
theorem filter_range_validation_witness :
    (wChainEnv.getBlockByNumber 999999 = none ∧
      PrivateTraceAPI.Filter wChainEnv (mkFilterArgs 999999 10) none =
        Except.error (TraceError.startBlockNotFound 999999)) ∧
    (wChainEnv.getBlockByNumber 10 = some (wChainBlock 10) ∧
      PrivateTraceAPI.Filter wChainEnv (mkFilterArgs 10 999999) none =
        Except.error (TraceError.endBlockNotFound 999999)) ∧
    ((wChainBlock 10).header.number ≤ (wChainBlock 10).header.number ∧
      PrivateTraceAPI.Filter wChainEnv (mkFilterArgs 10 10) none =
        Except.error (TraceError.invalidRange 10 10)) ∧
    ((wChainBlock 9).header.number ≤ (wChainBlock 10).header.number ∧
      PrivateTraceAPI.Filter wChainEnv (mkFilterArgs 10 9) none =
        Except.error (TraceError.invalidRange 9 10)) ∧
    ((wChainBlock 10).header.number < (wChainBlock 11).header.number ∧
      PrivateTraceAPI.Filter wChainEnv (mkFilterArgs 10 11) none =
        Except.ok 77) :=
  ⟨⟨rfl, (filter_range_validation wChainEnv (mkFilterArgs 999999 10) none).1 rfl⟩,
   ⟨rfl, (filter_range_validation wChainEnv (mkFilterArgs 10 999999) none).2.1
     (wChainBlock 10) rfl rfl⟩,
   ⟨by decide, (filter_range_validation wChainEnv (mkFilterArgs 10 10) none).2.2.1
     (wChainBlock 10) (wChainBlock 10) rfl rfl (by decide)⟩,
   ⟨by decide, (filter_range_validation wChainEnv (mkFilterArgs 10 9) none).2.2.1
     (wChainBlock 10) (wChainBlock 9) rfl rfl (by decide)⟩,
   ⟨by decide, (filter_range_validation wChainEnv (mkFilterArgs 10 11) none).2.2.2
     (wChainBlock 10) (wChainBlock 11) rfl rfl (by decide)⟩⟩
